import Mathlib

set_option maxRecDepth 40000

/-!
Verification of the pytube download service (`src/main.py`).

The service is a FastAPI app with three routes:
* `GET /api/download` (`api_download`): validates the `url` query parameter,
  normalizes `type`, delegates to `download_with_pytube`, and answers either
  with a direct `FileResponse` or, when `show_time` is set, with an HTML
  report page embedding `/file/{filename}` links.
* `GET /file/{filename}` (`get_file`): serves a previously produced artifact
  from the shared `downloads` directory.
* `GET /` : static usage info (no logic; not modelled).

The pytube library itself is an external collaborator.  Its entry points used
by the code (`YouTube(url)`, `StreamQuery.filter/order_by/desc/first`,
`Stream.download`) are modelled here: the query combinators are translated
from pytube's own implementation (they are pure list operations), while the
effectful entry points (`YouTube(url)` network init, `Stream.download`) are
modelled by an oracle (`World`) that decides whether they raise and what the
filesystem looks like afterwards.  String primitives (`str.strip`,
`str.lower`, `int(...)`) are modelled faithfully for ASCII data.
-/

namespace SongService

/-- Characters accepted as whitespace by Python's `str.strip()` /
`str.isspace()` (Unicode whitespace, including the ASCII control block
`\x1c`-`\x1f` and the Unicode space separators). -/
def pyIsSpace (c : Char) : Bool :=
  (9 ≤ c.toNat && c.toNat ≤ 13) || c = ' ' ||
  (28 ≤ c.toNat && c.toNat ≤ 31) || c.toNat = 133 || c.toNat = 160 ||
  c.toNat = 5760 || (8192 ≤ c.toNat && c.toNat ≤ 8202) || c.toNat = 8232 ||
  c.toNat = 8233 || c.toNat = 8239 || c.toNat = 8287 || c.toNat = 12288

/-- Model of Python `str.strip()` with no argument: removes leading and
trailing whitespace. -/
def pyStrip (s : String) : String :=
  String.mk (((s.data.dropWhile pyIsSpace).reverse.dropWhile pyIsSpace).reverse)

/-- Numeric value of an ASCII digit character. -/
def digitVal (c : Char) : Nat := c.toNat - 48

/-- Digit-run parser used by `pyInt`: accepts `digit (digit | _ digit)*`
continuations (Python allows single underscores strictly between digits). -/
def pyDigitsAux : Nat → List Char → Option Nat
  | acc, [] => some acc
  | _, ['_'] => none
  | acc, '_' :: c :: rest =>
    if c.isDigit then pyDigitsAux (acc * 10 + digitVal c) rest else none
  | acc, c :: rest =>
    if c.isDigit then pyDigitsAux (acc * 10 + digitVal c) rest else none

/-- Digit-sequence parser used by `pyInt`: the sequence must start with a
digit and may contain single underscores between digits. -/
def pyDigits : List Char → Option Nat
  | [] => none
  | c :: rest => if c.isDigit then pyDigitsAux (digitVal c) rest else none

/-- Model of Python `int(s)` on ASCII strings: optional surrounding
whitespace, an optional sign, then a digit sequence (underscores allowed
between digits).  Returns `none` where CPython raises `ValueError`. -/
def pyInt (s : String) : Option Int :=
  match ((s.data.dropWhile pyIsSpace).reverse.dropWhile pyIsSpace).reverse with
  | '+' :: rest => (pyDigits rest).map (fun n => (n : Int))
  | '-' :: rest => (pyDigits rest).map (fun n => -(n : Int))
  | rest => (pyDigits rest).map (fun n => (n : Int))

/-- The digit characters of a string, in order (pytube's
`filter(str.isdigit, value)` inside `StreamQuery.order_by`). -/
def digitsOf (s : String) : List Char := s.data.filter Char.isDigit

/-- Natural number denoted by a digit-character list (value of
`int("".join(filter(str.isdigit, value)))` when the list is nonempty). -/
def natOfDigits (l : List Char) : Nat :=
  l.foldl (fun acc c => acc * 10 + digitVal c) 0

/-- One pytube `Stream` as seen by `src/main.py`: the attributes the code
reads.  `resolution` and `abr` are `Option` because pytube reports them as
`None` for streams lacking the attribute. -/
structure Stream' where
  progressive : Bool
  file_extension : String
  only_audio : Bool
  resolution : Option String
  abr : Option String
  default_filename : String
deriving DecidableEq, Repr

/-- Attribute value used as a sort key, with `""` standing for the
(unreachable after filtering) `None` case. -/
def keyOf (key : Stream' → Option String) (s : Stream') : String :=
  (key s).getD ""

/-- Integer sort key pytube computes inside `order_by`:
`int("".join(filter(str.isdigit, value)))`. -/
def natKey (key : Stream' → Option String) (s : Stream') : Nat :=
  natOfDigits (digitsOf (keyOf key s))

/-- Model of pytube `StreamQuery.order_by(attribute_name)`: drop streams
whose attribute is `None`; if every remaining attribute value contains a
digit, stable-sort ascending by the integer formed from its digits;
otherwise (a `ValueError` while building the keys) stable-sort ascending by
the raw string value. -/
def order_by (key : Stream' → Option String) (l : List Stream') : List Stream' :=
  if (l.filter (fun s => (key s).isSome)).all (fun s => !(digitsOf (keyOf key s)).isEmpty) then
    (l.filter (fun s => (key s).isSome)).mergeSort (fun a b => natKey key a ≤ natKey key b)
  else
    (l.filter (fun s => (key s).isSome)).mergeSort (fun a b => keyOf key a ≤ keyOf key b)

/-- Model of pytube `StreamQuery.desc()`: reverse the stream list. -/
def desc (l : List Stream') : List Stream' := l.reverse

/-- Model of pytube `StreamQuery.first()`: the first stream, or `None`. -/
def first (l : List Stream') : Option Stream' := l.head?

/-- `fastapi.HTTPException(status_code, detail)` as raised by the service. -/
structure Err where
  status : Nat
  detail : String
deriving DecidableEq, Repr

/-- Audio branch of `download_with_pytube` (src/main.py lines 35-44):
`yt.streams.filter(only_audio=True).order_by("abr").desc().first()`,
raising 404 "No audio stream found" when the result is `None`. -/
def audioSelect (streams : List Stream') : Except Err Stream' :=
  match first (desc (order_by (fun s => s.abr) (streams.filter (fun s => s.only_audio)))) with
  | some s => .ok s
  | none => .error ⟨404, "No audio stream found"⟩

/-- `yt.streams.filter(progressive=True, file_extension="mp4")`
(src/main.py line 48). -/
def progFilter (streams : List Stream') : List Stream' :=
  streams.filter (fun s => s.progressive && s.file_extension == "mp4")

/-- Python `resolution.replace("p", "")` (src/main.py line 63): removes every
occurrence of the one-character pattern `p`. -/
def removeP (s : String) : String := String.mk (s.data.filter (fun c => c ≠ 'p'))

/-- The parsed resolution the selection loop works with: `None`/empty
resolutions are skipped by `if not s.resolution` and unparseable ones by the
`except ValueError` handler (src/main.py lines 60-65). -/
def resInt (s : Stream') : Option Int :=
  match s.resolution with
  | none => none
  | some r => if r = "" then none else pyInt (removeP r)

/-- One iteration of the 720p-cap selection loop (src/main.py lines 59-70):
keep the candidate when its parsed resolution is `<= 720` and strictly
above the best so far (`best_res` starts at `0`). -/
def bestStep (acc : Option Stream' × Int) (s : Stream') : Option Stream' × Int :=
  match resInt s with
  | none => acc
  | some n => if n ≤ 720 ∧ acc.2 < n then (some s, n) else acc

/-- The whole selection loop: `best_stream` after iterating over all
progressive streams. -/
def bestUnder720 (prog : List Stream') : Option Stream' :=
  (prog.foldl bestStep (none, 0)).1

/-- Video branch of `download_with_pytube` (src/main.py lines 45-79):
404 if no progressive mp4 stream; otherwise the loop's best `<= 720p`
stream, falling back to
`progressive_streams.order_by("resolution").desc().first()`; 404 if that is
still `None`. -/
def videoSelect (streams : List Stream') : Except Err Stream' :=
  if (progFilter streams).isEmpty then
    .error ⟨404, "No progressive video stream (mp4) found"⟩
  else
    match (bestUnder720 (progFilter streams)).orElse
        (fun _ => first (desc (order_by (fun s => s.resolution) (progFilter streams)))) with
    | some s => .ok s
    | none => .error ⟨404, "No suitable video stream found"⟩

/-- Stream selection of `download_with_pytube` as a function of the already
normalized `media_type` (which the caller computes on line 124). -/
def selectStream (streams : List Stream') (media_type : String) : Except Err Stream' :=
  if media_type = "audio" then audioSelect streams else videoSelect streams

/-- A filesystem effect performed during a job.  The handler itself performs
no removals anywhere in `src/main.py`; `write` records the artifact the
engine persists. -/
inductive FsOp
  | write (path : String)
  | remove (path : String)
deriving DecidableEq, Repr

/-- Oracle for one request: outcomes of the external pytube calls and the
ambient state the handler observes.  `initExc` is the exception message of
`YouTube(url)` if it raises; `token` is the draw of
`str(uuid.uuid4())[:8]`; `downloadExc` is the exception of
`stream.download(...)` if it raises; `fsExists` is `os.path.exists` at the
post-download check; `t0`/`t1` are the two `time.time()` readings (the clock
is modelled with integer time values). -/
structure World where
  initExc : Option String
  streams : List Stream'
  token : String
  downloadExc : Option String
  fsExists : String → Bool
  t0 : Int
  t1 : Int

/-- `DOWNLOAD_DIR = "downloads"` (src/main.py line 11). -/
def DOWNLOAD_DIR : String := "downloads"

/-- POSIX `os.path.join(d, f)` for a nonempty `d` without trailing slash:
`f` if absolute, otherwise `d + "/" + f`. -/
def joinPath (d f : String) : String :=
  if f.data.head? = some '/' then f else d ++ "/" ++ f

/-- `os.path.basename`: the part after the last `/`. -/
def basename (p : String) : String :=
  String.mk ((p.data.reverse.takeWhile (fun c => c ≠ '/')).reverse)

/-- `download_with_pytube(url, media_type)` (src/main.py lines 17-102).
The `url` argument only feeds `YouTube(url)`, whose outcome the oracle
carries, so it is not a parameter here.  Returns the `(filepath, elapsed)`
pair or the raised `HTTPException`, together with the filesystem effects of
the run. -/
def download_with_pytube (w : World) (media_type : String) :
    Except Err (String × Int) × List FsOp :=
  match w.initExc with
  | some e => (.error ⟨400, "pytube error (init): " ++ e⟩, [])
  | none =>
    let unique_id := w.token
    match selectStream w.streams media_type with
    | .error e => (.error e, [])
    | .ok stream =>
      let original_name := stream.default_filename
      let final_filename := unique_id ++ "-" ++ original_name
      match w.downloadExc with
      | some e => (.error ⟨500, "pytube error (download): " ++ e⟩, [])
      | none =>
        let filepath := joinPath DOWNLOAD_DIR final_filename
        let tr := if w.fsExists filepath then [FsOp.write filepath] else []
        let elapsed := w.t1 - w.t0
        if filepath = "" ∨ w.fsExists filepath = false then
          (.error ⟨500, "Download finished but file not found on disk."⟩, tr)
        else
          (.ok (filepath, elapsed), tr)

/-- Model of the Python format specifier `{q:.precf}` on the integer-valued
clock: on integral values CPython prints the value followed by `prec` zero
decimals (`"{:.2f}".format(2.0) == "2.00"`). -/
def fmtFixed (prec : Nat) (q : Int) : String :=
  toString q ++ "." ++ String.mk (List.replicate prec '0')

/-- Literal pieces of the `show_time` HTML template (src/main.py lines
140-157), split at the interpolation points of the f-string. -/
def htmlHead : String :=
  "\n        <!doctype html>\n        <html>\n        <head>\n            <meta charset=\"utf-8\">\n            <title>Processing Time</title>\n        </head>\n        <body style=\"font-family:sans-serif;\">\n            <h2>Download complete ✅ (pytube)</h2>\n            <p><b>Processing time:</b> "

/-- Template piece between the elapsed time and the filename. -/
def htmlMid1 : String := " seconds</p>\n            <p><b>File:</b> "

/-- Template piece between the filename and the `<a href="/file/...` link. -/
def htmlMid2 : String :=
  "</p>\n            <p>If download didn\x27t start automatically, <a href=\""

/-- Template piece between the link and the hidden iframe. -/
def htmlMid3 : String :=
  "\" download>click here</a>.</p>\n\n            <!-- Auto-download via hidden iframe -->\n            <iframe src=\""

/-- Closing template piece. -/
def htmlTail : String :=
  "\" style=\"display:none;\"></iframe>\n        </body>\n        </html>\n        "

/-- The `show_time` report document, as built by the f-string. -/
def htmlReport (timeStr filename : String) : String :=
  htmlHead ++ timeStr ++ htmlMid1 ++ filename ++ htmlMid2 ++ "/file/" ++
    filename ++ htmlMid3 ++ "/file/" ++ filename ++ htmlTail

/-- Model of Python `str.lower()` for ASCII data: lowercase every character. -/
def pyLower (s : String) : String := String.mk (s.data.map Char.toLower)

/-- Line 124: `media_type = "audio" if type.lower() == "audio" else "video"`. -/
def mediaTypeOf (ty : String) : String :=
  if pyLower ty = "audio" then "audio" else "video"

/-- An HTTP success body: the HTML report or a `FileResponse` (download path,
suggested filename, media type, optional `X-Processing-Time` header). -/
inductive Response
  | html (content : String)
  | file (path : String) (filename : String) (media_type : String)
      (xProcessingTime : Option String)
deriving DecidableEq, Repr

/-- The `/api/download` handler (src/main.py lines 105-166): strip and
validate `url`, normalize `type`, run `download_with_pytube`, then answer
with the report page (`show_time`) or a direct `FileResponse`. -/
def api_download (w : World) (url ty : String) (show_time : Bool) :
    Except Err Response × List FsOp :=
  let url := pyStrip url
  if url = "" then (.error ⟨400, "url is required"⟩, [])
  else
    let media_type := mediaTypeOf ty
    match download_with_pytube w media_type with
    | (.error e, tr) => (.error e, tr)
    | (.ok (filepath, elapsed), tr) =>
      let filename := basename filepath
      if show_time then
        (.ok (.html (htmlReport (fmtFixed 2 elapsed) filename)), tr)
      else
        (.ok (.file filepath filename "application/octet-stream"
          (some (fmtFixed 3 elapsed ++ "s"))), tr)

/-- The `/file/{filename}` handler (src/main.py lines 169-177):
404 when the file is absent from the shared directory, otherwise a
`FileResponse` (no extra header). -/
def get_file (fsExists : String → Bool) (filename : String) : Except Err Response :=
  let filepath := joinPath DOWNLOAD_DIR filename
  if fsExists filepath = false then .error ⟨404, "File not found"⟩
  else .ok (.file filepath filename "application/octet-stream" none)

instance {ε α : Type} [DecidableEq ε] [DecidableEq α] : DecidableEq (Except ε α) :=
  fun a b =>
    match a, b with
    | .error e₁, .error e₂ =>
      if h : e₁ = e₂ then .isTrue (by rw [h]) else .isFalse (by intro hc; cases hc; exact h rfl)
    | .ok v₁, .ok v₂ =>
      if h : v₁ = v₂ then .isTrue (by rw [h]) else .isFalse (by intro hc; cases hc; exact h rfl)
    | .error _, .ok _ => .isFalse (by intro hc; cases hc)
    | .ok _, .error _ => .isFalse (by intro hc; cases hc)

/-- Number of removal operations in a trace. -/
def countRemoves (tr : List FsOp) : Nat :=
  (tr.filter (fun op => match op with | .remove _ => true | _ => false)).length

/-- `sub` occurs somewhere inside `s`. -/
def StrContains (s sub : String) : Prop :=
  ∃ a b : List Char, s.data = a ++ sub.data ++ b

/-- Invariant of the 720p selection loop: the accumulator is either the
initial `(None, 0)` or holds a stream of `U` whose parsed resolution equals
its second component, a value in `(0, 720]`. -/
def GoodAcc (U : List Stream') (acc : Option Stream' × Int) : Prop :=
  match acc.1 with
  | none => acc.2 = 0
  | some s => s ∈ U ∧ resInt s = some acc.2 ∧ 0 < acc.2 ∧ acc.2 ≤ 720

/-- The characters that can occur in the first eight positions of
`str(uuid.uuid4())`: lowercase hexadecimal digits. -/
def isHexChar (c : Char) : Bool := c.isDigit || ('a' ≤ c && c ≤ 'f')

/-- A progressive 720p mp4 stream used in concrete runs. -/
def stream720 : Stream' := ⟨true, "mp4", false, some "720p", none, "t.mp4"⟩

/-- A progressive mp4 stream whose `resolution` attribute is `None`. -/
def streamNoRes : Stream' := ⟨true, "mp4", false, none, none, "n.mp4"⟩

/-- A progressive mp4 stream with resolution string `"720"` (no trailing `p`). -/
def streamBareRes : Stream' := ⟨true, "mp4", false, some "720", none, "b.mp4"⟩

/-- A progressive mp4 stream above the 720p cap. -/
def stream1080 : Stream' := ⟨true, "mp4", false, some "1080p", none, "c.mp4"⟩

/-- An audio-only stream with a 128kbps average bitrate. -/
def audio128 : Stream' := ⟨false, "webm", true, none, some "128kbps", "y.webm"⟩

/-- An audio-only stream with a 50kbps average bitrate. -/
def audio50 : Stream' := ⟨false, "webm", true, none, some "50kbps", "x.webm"⟩

/-- An audio-only stream whose `abr` attribute is `None`. -/
def audioNoAbr : Stream' := ⟨false, "webm", true, none, none, "a.webm"⟩

/-- Oracle of a fully successful video job. -/
def wOk : World :=
  ⟨none, [stream720], "aaaa1111", none, fun p => p == "downloads/aaaa1111-t.mp4", 0, 2⟩

/-- Oracle whose `YouTube(url)` call raises an access-barrier message. -/
def wBot : World :=
  ⟨some "Sign in to confirm you are not a bot", [], "bbbb2222", none, fun _ => false, 0, 0⟩

/-- Oracle whose engine reports success but leaves no file on disk. -/
def wGone : World :=
  ⟨none, [stream720], "cccc3333", none, fun _ => false, 0, 1⟩

/-- A second successful job over the same url/streams, with a distinct token. -/
def wOk2 : World :=
  ⟨none, [stream720], "dddd4444", none, fun p => p == "downloads/dddd4444-t.mp4", 0, 3⟩

theorem none_orElse' {α : Type} (f : Unit → Option α) :
    (none : Option α).orElse f = f () := rfl

theorem some_orElse' {α : Type} (a : α) (f : Unit → Option α) :
    (some a).orElse f = some a := rfl

theorem pairwise_getLast_max {α : Type} {le : α → α → Bool} {l : List α} {m : α}
    (hp : l.Pairwise (fun a b => le a b = true)) (hl : l.getLast? = some m)
    (hrefl : le m m = true) : ∀ x ∈ l, le x m = true := by
  obtain ⟨ys, rfl⟩ := List.getLast?_eq_some_iff.mp hl
  intro x hx
  rcases List.mem_append.mp hx with hx | hx
  · exact (List.pairwise_append.mp hp).2.2 x hx m (List.mem_singleton_self m)
  · cases List.mem_singleton.mp hx
    exact hrefl

theorem order_by_eq_nil_iff (key : Stream' → Option String) (l : List Stream') :
    order_by key l = [] ↔ l.filter (fun s => (key s).isSome) = [] := by
  unfold order_by
  split <;>
    (constructor <;> intro h
     · exact ((List.mergeSort_perm _ _).symm.trans (by rw [h])).eq_nil
     · rw [h, List.mergeSort_nil])

theorem order_by_first_some (key : Stream' → Option String) (l : List Stream')
    (h : l.filter (fun s => (key s).isSome) ≠ []) :
    ∃ s, first (desc (order_by key l)) = some s := by
  cases he : desc (order_by key l) with
  | nil =>
    exact absurd ((order_by_eq_nil_iff key l).mp (List.reverse_eq_nil_iff.mp he)) h
  | cons a t => exact ⟨a, rfl⟩

theorem order_by_first_max (key : Stream' → Option String) (l : List Stream') (s : Stream')
    (hall : ∀ t ∈ l, (key t).isSome → digitsOf (keyOf key t) ≠ [])
    (h : first (desc (order_by key l)) = some s) :
    (key s).isSome = true ∧ s ∈ l ∧
      ∀ t ∈ l, (key t).isSome → natKey key t ≤ natKey key s := by
  have hcond : (l.filter (fun s => (key s).isSome)).all
      (fun s => !(digitsOf (keyOf key s)).isEmpty) = true := by
    rw [List.all_eq_true]
    intro t ht
    have ht' := List.mem_filter.mp ht
    simpa [List.isEmpty_iff] using hall t ht'.1 ht'.2
  unfold order_by at h
  rw [if_pos hcond] at h
  unfold first desc at h
  rw [List.head?_reverse] at h
  have hsorted := @List.sorted_mergeSort Stream'
    (fun a b => decide (natKey key a ≤ natKey key b))
    (fun a b c hab hbc => by
      simp only [decide_eq_true_eq] at *
      omega)
    (fun a b => by
      simp only [Bool.or_eq_true, decide_eq_true_eq]
      omega)
    (l.filter (fun s => (key s).isSome))
  have hmax := pairwise_getLast_max hsorted h (by simp)
  have hmem : s ∈ (l.filter (fun s => (key s).isSome)).mergeSort
      (fun a b => decide (natKey key a ≤ natKey key b)) :=
    List.mem_of_mem_getLast? (by rw [h]; exact rfl)
  have hmem' := List.mem_filter.mp (List.mem_mergeSort.mp hmem)
  refine ⟨hmem'.2, hmem'.1, fun t ht hkt => ?_⟩
  have : t ∈ (l.filter (fun s => (key s).isSome)).mergeSort
      (fun a b => decide (natKey key a ≤ natKey key b)) :=
    List.mem_mergeSort.mpr (List.mem_filter.mpr ⟨ht, hkt⟩)
  simpa using hmax t this

theorem goodAcc_step (U : List Stream') (acc : Option Stream' × Int) (s : Stream')
    (hs : s ∈ U) (h : GoodAcc U acc) : GoodAcc U (bestStep acc s) := by
  have h0 : 0 ≤ acc.2 := by
    unfold GoodAcc at h
    split at h
    · omega
    · exact le_of_lt h.2.2.1
  cases hr : resInt s with
  | none => simpa only [bestStep, hr] using h
  | some n =>
    by_cases hc : n ≤ 720 ∧ acc.2 < n
    · simp only [bestStep, hr, if_pos hc]
      show s ∈ U ∧ resInt s = some n ∧ 0 < n ∧ n ≤ 720
      exact ⟨hs, hr, by omega, hc.1⟩
    · simp only [bestStep, hr, if_neg hc]
      exact h

theorem goodAcc_fold (U : List Stream') (l : List Stream') :
    ∀ acc, (∀ x ∈ l, x ∈ U) → GoodAcc U acc → GoodAcc U (l.foldl bestStep acc) := by
  induction l with
  | nil => intro acc _ h; exact h
  | cons a t ih =>
    intro acc hl h
    simp only [List.foldl_cons]
    exact ih (bestStep acc a) (fun x hx => hl x (List.mem_cons.mpr (Or.inr hx)))
      (goodAcc_step U acc a (hl a (List.mem_cons.mpr (Or.inl rfl))) h)

theorem bestStep_ge (acc : Option Stream' × Int) (s : Stream') :
    acc.2 ≤ (bestStep acc s).2 := by
  cases hr : resInt s with
  | none => simp only [bestStep, hr]; exact le_refl _
  | some n =>
    by_cases hc : n ≤ 720 ∧ acc.2 < n
    · simp only [bestStep, hr, if_pos hc]
      exact le_of_lt hc.2
    · simp only [bestStep, hr, if_neg hc]
      exact le_refl _

theorem bestFold_ge (l : List Stream') :
    ∀ acc : Option Stream' × Int, acc.2 ≤ (l.foldl bestStep acc).2 := by
  induction l with
  | nil => intro acc; exact le_refl _
  | cons a t ih =>
    intro acc
    simp only [List.foldl_cons]
    exact le_trans (bestStep_ge acc a) (ih _)

theorem bestFold_ub (l : List Stream') (t : Stream') (n : Int)
    (hn : resInt t = some n) (h720 : n ≤ 720) :
    ∀ acc : Option Stream' × Int, t ∈ l → n ≤ (l.foldl bestStep acc).2 := by
  induction l with
  | nil => intro acc ht; cases ht
  | cons a r ih =>
    intro acc ht
    simp only [List.foldl_cons]
    rcases List.mem_cons.mp ht with rfl | ht'
    · by_cases hc : acc.2 < n
      · have hstep : (bestStep acc t).2 = n := by
          simp only [bestStep, hn, if_pos (And.intro h720 hc)]
        calc n = (bestStep acc t).2 := hstep.symm
          _ ≤ _ := bestFold_ge r _
      · calc n ≤ acc.2 := by omega
          _ ≤ (bestStep acc t).2 := bestStep_ge acc t
          _ ≤ _ := bestFold_ge r _
    · exact ih _ ht'

theorem joinPath_ne_empty (d f : String) : joinPath d f ≠ "" := by
  unfold joinPath
  split
  · rename_i h
    intro hc
    rw [hc] at h
    exact absurd h (by decide)
  · intro hc
    have hd := congrArg String.data hc
    have hlen := congrArg List.length hd
    simp [String.data_append] at hlen

theorem order_by_first_mem (key : Stream' → Option String) (l : List Stream') (s : Stream')
    (h : first (desc (order_by key l)) = some s) :
    s ∈ l ∧ (key s).isSome = true := by
  unfold first desc order_by at h
  rw [List.head?_reverse] at h
  split at h <;>
  · have hmem : s ∈ _ := List.mem_of_mem_getLast? (by rw [h]; exact rfl)
    have hf := List.mem_filter.mp (List.mem_mergeSort.mp hmem)
    exact ⟨hf.1, hf.2⟩

theorem bestUnder720_spec (prog : List Stream') (s : Stream')
    (h : bestUnder720 prog = some s) :
    s ∈ prog ∧ ∃ m, resInt s = some m ∧ 0 < m ∧ m ≤ 720 ∧
      ∀ t ∈ prog, ∀ n, resInt t = some n → n ≤ 720 → n ≤ m := by
  have hg := goodAcc_fold prog prog (none, 0) (fun x hx => hx) (by unfold GoodAcc; rfl)
  unfold bestUnder720 at h
  unfold GoodAcc at hg
  rw [h] at hg
  exact ⟨hg.1, (prog.foldl bestStep (none, 0)).2, hg.2.1, hg.2.2.1, hg.2.2.2,
    fun t ht n hn h720 => bestFold_ub prog t n hn h720 (none, 0) ht⟩

theorem download_ok_inv (w : World) (mt p : String) (e : Int) (tr : List FsOp)
    (h : download_with_pytube w mt = (.ok (p, e), tr)) :
    w.initExc = none ∧ w.downloadExc = none ∧
    ∃ s, selectStream w.streams mt = .ok s ∧
      p = joinPath DOWNLOAD_DIR (w.token ++ "-" ++ s.default_filename) ∧
      tr = [FsOp.write p] ∧ w.fsExists p = true ∧ e = w.t1 - w.t0 := by
  unfold download_with_pytube at h
  cases hinit : w.initExc with
  | some msg => rw [hinit] at h; simp at h
  | none =>
    rw [hinit] at h
    cases hsel : selectStream w.streams mt with
    | error err => rw [hsel] at h; simp at h
    | ok s =>
      rw [hsel] at h
      cases hdl : w.downloadExc with
      | some msg => rw [hdl] at h; simp at h
      | none =>
        rw [hdl] at h
        dsimp only at h
        by_cases hfs :
            w.fsExists (joinPath DOWNLOAD_DIR (w.token ++ "-" ++ s.default_filename)) = true
        · rw [if_pos hfs] at h
          rw [if_neg (by
            rintro (hor | hor)
            · exact joinPath_ne_empty _ _ hor
            · rw [hfs] at hor; cases hor)] at h
          injection h with h1 h2
          injection h1 with h1
          injection h1 with hp he
          refine ⟨rfl, rfl, s, rfl, hp.symm, ?_, ?_, he.symm⟩
          · rw [← h2, hp]
          · rw [← hp]; exact hfs
        · have hfalse :
              w.fsExists (joinPath DOWNLOAD_DIR (w.token ++ "-" ++ s.default_filename)) = false := by
            cases hb : w.fsExists (joinPath DOWNLOAD_DIR (w.token ++ "-" ++ s.default_filename))
            · rfl
            · exact absurd hb hfs
          rw [if_neg hfs] at h
          rw [if_pos (Or.inr hfalse)] at h
          injection h with h1 h2
          injection h1

theorem download_ok_eval (w : World) (mt : String) (s : Stream')
    (hinit : w.initExc = none) (hsel : selectStream w.streams mt = .ok s)
    (hdl : w.downloadExc = none)
    (hfs : w.fsExists (joinPath DOWNLOAD_DIR (w.token ++ "-" ++ s.default_filename)) = true) :
    download_with_pytube w mt =
      (.ok (joinPath DOWNLOAD_DIR (w.token ++ "-" ++ s.default_filename), w.t1 - w.t0),
       [FsOp.write (joinPath DOWNLOAD_DIR (w.token ++ "-" ++ s.default_filename))]) := by
  unfold download_with_pytube
  rw [hinit]
  dsimp only
  rw [hsel]
  dsimp only
  rw [hdl]
  dsimp only
  rw [if_pos hfs]
  rw [if_neg (by
    rintro (hor | hor)
    · exact joinPath_ne_empty _ _ hor
    · rw [hfs] at hor; cases hor)]

theorem api_download_eval (w : World) (url ty : String) (st : Bool)
    (hurl : pyStrip url ≠ "") :
    api_download w url ty st =
      match download_with_pytube w (mediaTypeOf ty) with
      | (.error e, tr) => (.error e, tr)
      | (.ok (fp, el), tr) =>
        if st then (.ok (.html (htmlReport (fmtFixed 2 el) (basename fp))), tr)
        else (.ok (.file fp (basename fp) "application/octet-stream"
          (some (fmtFixed 3 el ++ "s"))), tr) := by
  unfold api_download
  rw [if_neg hurl]

theorem download_trace_cases (w : World) (mt : String) :
    (download_with_pytube w mt).2 = [] ∨
    ∃ p, (download_with_pytube w mt).2 = [FsOp.write p] := by
  unfold download_with_pytube
  rcases w.initExc with _ | e
  · dsimp only
    rcases selectStream w.streams mt with e | s
    · exact Or.inl rfl
    · dsimp only
      rcases w.downloadExc with _ | e
      · dsimp only
        split
        · dsimp only
          split
          · exact Or.inr ⟨_, rfl⟩
          · exact Or.inl rfl
        · dsimp only
          split
          · exact Or.inr ⟨_, rfl⟩
          · exact Or.inl rfl
      · exact Or.inl rfl
  · exact Or.inl rfl

theorem download_missing_fst (w : World) (mt : String) (s : Stream')
    (hinit : w.initExc = none) (hsel : selectStream w.streams mt = .ok s)
    (hdl : w.downloadExc = none)
    (hmiss : joinPath DOWNLOAD_DIR (w.token ++ "-" ++ s.default_filename) = "" ∨
      w.fsExists (joinPath DOWNLOAD_DIR (w.token ++ "-" ++ s.default_filename)) = false) :
    (download_with_pytube w mt).1 =
      .error ⟨500, "Download finished but file not found on disk."⟩ := by
  unfold download_with_pytube
  rw [hinit]
  dsimp only
  rw [hsel]
  dsimp only
  rw [hdl]
  dsimp only
  rw [if_pos hmiss]

/-- C3: a request whose `url` is empty after stripping is rejected with
HTTP 400 `"url is required"` before the oracle (the extraction engine, the
clock, the filesystem) is consulted at all: the result does not depend on
the oracle and the effect trace is empty. -/
theorem c3_empty_url_rejected (w w' : World) (url ty : String) (st : Bool)
    (h : pyStrip url = "") :
    api_download w url ty st = (.error ⟨400, "url is required"⟩, []) ∧
    api_download w url ty st = api_download w' url ty st := by
  constructor
  · unfold api_download
    rw [if_pos h]
  · unfold api_download
    rw [if_pos h, if_pos h]

theorem c3_empty_url_rejected_witness :
    api_download wOk "   \t " "video" false = (.error ⟨400, "url is required"⟩, []) :=
  (c3_empty_url_rejected wOk wOk "   \t " "video" false (by decide)).1

/-- C9: the `type` query parameter is normalized case-insensitively and never
rejected: `mediaTypeOf` yields `"audio"` exactly for case-variants of
`"audio"`, every other value (including `"mp3"` and `""`) selects the video
path, and the handler's behaviour factors entirely through this
normalization (so no value of `type` can produce a validation error). -/
theorem c9_type_normalization (w : World) (url ty : String) (st : Bool) :
    (mediaTypeOf ty = "audio" ↔ pyLower ty = "audio") ∧
    (mediaTypeOf ty = "audio" ∨ mediaTypeOf ty = "video") ∧
    api_download w url ty st = api_download w url (mediaTypeOf ty) st ∧
    mediaTypeOf "mp3" = "video" ∧ mediaTypeOf "" = "video" ∧
    mediaTypeOf "AUDIO" = "audio" ∧ mediaTypeOf "AuDiO" = "audio" := by
  have hid : mediaTypeOf (mediaTypeOf ty) = mediaTypeOf ty := by
    by_cases hy : pyLower ty = "audio"
    · unfold mediaTypeOf
      rw [if_pos hy]
      decide
    · unfold mediaTypeOf
      rw [if_neg hy]
      decide
  refine ⟨?_, ?_, ?_, by decide, by decide, by decide, by decide⟩
  · unfold mediaTypeOf
    by_cases hy : pyLower ty = "audio"
    · rw [if_pos hy]
      simp [hy]
    · rw [if_neg hy]
      constructor
      · intro hc
        exact absurd hc (by decide)
      · intro hc
        exact absurd hc hy
  · unfold mediaTypeOf
    by_cases hy : pyLower ty = "audio"
    · rw [if_pos hy]
      exact Or.inl rfl
    · rw [if_neg hy]
      exact Or.inr rfl
  · unfold api_download
    rw [hid]

/-- C5 (corrected): this variant maps every exception of `YouTube(url)` —
including access-barrier ("detected as automated") conditions — to HTTP 400
with detail `"pytube error (init): "` followed by the engine's message; no
code path produces 403. -/
theorem c5_amended_init_error_400 (w : World) (url ty e : String) (st : Bool)
    (hurl : pyStrip url ≠ "") (hinit : w.initExc = some e) :
    api_download w url ty st = (.error ⟨400, "pytube error (init): " ++ e⟩, []) := by
  rw [api_download_eval w url ty st hurl]
  unfold download_with_pytube
  rw [hinit]

/-- C5 counterexample: when the engine raises an access-barrier condition,
the response status is 400 (with the generic init-error prefix), not 403 as
the claim states. -/
theorem c5_counterexample :
    api_download wBot "http://u" "video" false =
      (.error ⟨400, "pytube error (init): Sign in to confirm you are not a bot"⟩, []) ∧
    (400 : Nat) ≠ 403 := by
  constructor
  · decide
  · decide

theorem c5_amended_init_error_400_witness :
    api_download wBot "http://u" "audio" true =
      (.error ⟨400, "pytube error (init): Sign in to confirm you are not a bot"⟩, []) :=
  c5_amended_init_error_400 wBot "http://u" "audio" "Sign in to confirm you are not a bot"
    true (by decide) (by decide)

/-- C6: when the download call returns but the artifact path is empty or the
file does not exist on disk, the handler fails with HTTP 500
`"Download finished but file not found on disk."`. -/
theorem c6_missing_artifact_500 (w : World) (url ty : String) (st : Bool) (s : Stream')
    (hurl : pyStrip url ≠ "")
    (hinit : w.initExc = none)
    (hsel : selectStream w.streams (mediaTypeOf ty) = .ok s)
    (hdl : w.downloadExc = none)
    (hmiss : joinPath DOWNLOAD_DIR (w.token ++ "-" ++ s.default_filename) = "" ∨
      w.fsExists (joinPath DOWNLOAD_DIR (w.token ++ "-" ++ s.default_filename)) = false) :
    (api_download w url ty st).1 =
      .error ⟨500, "Download finished but file not found on disk."⟩ := by
  rw [api_download_eval w url ty st hurl]
  rcases hpair : download_with_pytube w (mediaTypeOf ty) with ⟨r, tr⟩
  have hr : r = .error ⟨500, "Download finished but file not found on disk."⟩ := by
    have hfst := download_missing_fst w (mediaTypeOf ty) s hinit hsel hdl hmiss
    rw [hpair] at hfst
    exact hfst
  subst hr
  rfl

theorem c6_missing_artifact_500_witness :
    (api_download wGone "http://u" "video" false).1 =
      .error ⟨500, "Download finished but file not found on disk."⟩ :=
  c6_missing_artifact_500 wGone "http://u" "video" false stream720 (by decide) (by decide)
    (by decide) (by decide) (Or.inr (by decide))

/-- C1 counterexample: a fully successful binary-mode job whose effect trace
holds no removal at all — the artifact stays in the shared `downloads`
directory after the response completes, refuting "cleanup executes exactly
once" and "the artifact path is removed after the response fully
completes". -/
theorem c1_counterexample :
    api_download wOk "http://u" "video" false =
      (.ok (.file "downloads/aaaa1111-t.mp4" "aaaa1111-t.mp4" "application/octet-stream"
        (some "2.000s")), [FsOp.write "downloads/aaaa1111-t.mp4"]) ∧
    countRemoves [FsOp.write "downloads/aaaa1111-t.mp4"] = 0 := by
  constructor
  · decide
  · decide

/-- C1 (corrected): the handler performs no cleanup on any path — the effect
trace of every request contains zero removal operations, and on a successful
binary response the written artifact is still present in the trace (never
removed), i.e. the artifact outlives the response. -/
theorem c1_amended_no_cleanup (w : World) (url ty : String) (st : Bool) :
    countRemoves (api_download w url ty st).2 = 0 ∧
    (∀ p fn mt hdr tr, api_download w url ty st = (.ok (.file p fn mt hdr), tr) →
      FsOp.write p ∈ tr) := by
  by_cases hurl : pyStrip url = ""
  · unfold api_download
    rw [if_pos hurl]
    exact ⟨rfl, fun p fn mt hdr tr hc => by injection hc with h1 h2; injection h1⟩
  · rw [api_download_eval w url ty st hurl]
    have htr := download_trace_cases w (mediaTypeOf ty)
    rcases hpair : download_with_pytube w (mediaTypeOf ty) with ⟨r, tr⟩
    rw [hpair] at htr
    rcases r with e | ⟨fp, el⟩
    · dsimp only
      constructor
      · rcases htr with h | ⟨p, h⟩
        · have h' : tr = [] := h
          rw [h']
          rfl
        · have h' : tr = [FsOp.write p] := h
          rw [h']
          rfl
      · intro p fn mt hdr tr' hc
        injection hc with h1 h2
        injection h1
    · dsimp only
      have htr' : tr = [FsOp.write fp] := by
        obtain ⟨-, -, s, -, -, h5, -, -⟩ := download_ok_inv w (mediaTypeOf ty) fp el tr hpair
        exact h5
      by_cases hst : st = true
      · rw [if_pos hst]
        constructor
        · rw [htr']; rfl
        · intro p fn mt hdr tr' hc
          injection hc with h1 h2
          injection h1 with h1
          injection h1
      · rw [if_neg hst]
        constructor
        · rw [htr']; rfl
        · intro p fn mt hdr tr' hc
          injection hc with h1 h2
          injection h1 with h1
          injection h1 with hp hfn hmt hhdr
          rw [htr'] at h2
          rw [← h2, hp]
          exact List.mem_singleton_self _

theorem c1_amended_no_cleanup_witness :
    countRemoves (api_download wOk "http://u" "video" false).2 = 0 ∧
    FsOp.write "downloads/aaaa1111-t.mp4" ∈ [FsOp.write "downloads/aaaa1111-t.mp4"] :=
  ⟨(c1_amended_no_cleanup wOk "http://u" "video" false).1,
   (c1_amended_no_cleanup wOk "http://u" "video" false).2 "downloads/aaaa1111-t.mp4"
     "aaaa1111-t.mp4" "application/octet-stream" (some "2.000s")
     [FsOp.write "downloads/aaaa1111-t.mp4"] (by decide)⟩

/-- C10 counterexample: a progressive stream whose resolution string is
`"720"` — not of the form `<digits>p`, as its last character is not `p` —
is nevertheless parsed by `int(resolution.replace("p", ""))` and selected as
the best stream under the 720p ceiling. -/
theorem c10_counterexample :
    bestUnder720 [streamBareRes] = some streamBareRes ∧
    ("720".data.getLast? = some 'p') = False := by
  constructor
  · decide
  · decide

/-- C10 (corrected): the selection loop is total and a progressive stream
whose resolution is missing, empty, or rejected by Python `int()` after
removing every `p` (the code's actual parse) is skipped unchanged and can
never be chosen as the best stream under the 720p ceiling; but a resolution
need not have the exact form `<digits>p` to be chosen (see the
counterexample `"720"`). -/
theorem c10_amended_skip_unparseable (prog : List Stream') (s : Stream')
    (h : resInt s = none) :
    (∀ acc, bestStep acc s = acc) ∧ bestUnder720 prog ≠ some s := by
  constructor
  · intro acc
    simp only [bestStep, h]
  · intro hc
    obtain ⟨-, m, hm, -⟩ := bestUnder720_spec prog s hc
    rw [h] at hm
    exact Option.noConfusion hm

theorem c10_amended_skip_unparseable_witness :
    bestStep (none, 0) streamNoRes = (none, 0) ∧
    bestUnder720 [streamNoRes] ≠ some streamNoRes :=
  ⟨(c10_amended_skip_unparseable [streamNoRes] streamNoRes (by decide)).1 (none, 0),
   (c10_amended_skip_unparseable [streamNoRes] streamNoRes (by decide)).2⟩

/-- C2 counterexample: a nonempty progressive mp4 stream list in which no
stream has a resolution `<= 720p` (the only stream reports `None`), yet the
code answers 404 "No suitable video stream found" instead of selecting the
highest-resolution progressive stream overall as the claim states. -/
theorem c2_counterexample :
    progFilter [streamNoRes] ≠ [] ∧
    videoSelect [streamNoRes] = .error ⟨404, "No suitable video stream found"⟩ := by
  constructor
  · decide
  · simp [videoSelect, progFilter, bestUnder720, bestStep, resInt, order_by, desc, first,
      streamNoRes, List.mergeSort_nil]

/-- C2 (corrected): with no progressive mp4 stream the video path fails 404
"No progressive video stream (mp4) found"; when the 720p-capped loop finds a
stream it is selected and its parsed resolution is maximal among parseable
resolutions `<= 720`; when the loop finds none, the fallback selects a
stream maximizing pytube's digit-extracted resolution key among progressive
streams that report a resolution (rather than "overall"); and when every
progressive stream's resolution is `None`, the request fails 404 "No
suitable video stream found" even though progressive streams exist. -/
theorem c2_amended_video_selection (streams : List Stream') :
    (progFilter streams = [] →
      videoSelect streams = .error ⟨404, "No progressive video stream (mp4) found"⟩) ∧
    (∀ s, bestUnder720 (progFilter streams) = some s →
      videoSelect streams = .ok s ∧ s ∈ progFilter streams ∧
      ∃ m, resInt s = some m ∧ 0 < m ∧ m ≤ 720 ∧
        ∀ t ∈ progFilter streams, ∀ n, resInt t = some n → n ≤ 720 → n ≤ m) ∧
    (bestUnder720 (progFilter streams) = none →
      (∃ t ∈ progFilter streams, (t.resolution).isSome = true) →
      (∀ t ∈ progFilter streams, (t.resolution).isSome = true →
        digitsOf ((t.resolution).getD "") ≠ []) →
      ∃ s, videoSelect streams = .ok s ∧ s ∈ progFilter streams ∧
        (s.resolution).isSome = true ∧
        ∀ t ∈ progFilter streams, (t.resolution).isSome = true →
          natOfDigits (digitsOf ((t.resolution).getD "")) ≤
            natOfDigits (digitsOf ((s.resolution).getD ""))) ∧
    (bestUnder720 (progFilter streams) = none →
      (∀ t ∈ progFilter streams, t.resolution = none) →
      progFilter streams ≠ [] →
      videoSelect streams = .error ⟨404, "No suitable video stream found"⟩) := by
  refine ⟨?_, ?_, ?_, ?_⟩
  · intro h
    unfold videoSelect
    rw [h]
    rfl
  · intro s h
    obtain ⟨hmem, m, hm, hpos, hle, hub⟩ := bestUnder720_spec _ s h
    have hne : progFilter streams ≠ [] := by
      intro hc
      rw [hc] at hmem
      cases hmem
    refine ⟨?_, hmem, m, hm, hpos, hle, hub⟩
    unfold videoSelect
    rw [if_neg (fun hc => hne (List.isEmpty_iff.mp hc)), h]
    rfl
  · intro h hex hall
    obtain ⟨t, ht, hts⟩ := hex
    have hne : progFilter streams ≠ [] := by
      intro hc
      rw [hc] at ht
      cases ht
    have hfilter_ne : (progFilter streams).filter (fun s => (s.resolution).isSome) ≠ [] := by
      intro hc
      have hmem : t ∈ (progFilter streams).filter (fun s => (s.resolution).isSome) :=
        List.mem_filter.mpr ⟨ht, hts⟩
      rw [hc] at hmem
      cases hmem
    obtain ⟨s, hs⟩ :=
      order_by_first_some (fun s => s.resolution) (progFilter streams) hfilter_ne
    have hmax :=
      order_by_first_max (fun s => s.resolution) (progFilter streams) s hall hs
    refine ⟨s, ?_, hmax.2.1, hmax.1, hmax.2.2⟩
    unfold videoSelect
    rw [if_neg (fun hc => hne (List.isEmpty_iff.mp hc)), h, none_orElse', hs]
  · intro h hnone hne
    have hfilter : (progFilter streams).filter (fun s => (s.resolution).isSome) = [] := by
      rw [List.filter_eq_nil_iff]
      intro t ht
      rw [hnone t ht]
      decide
    have hOrdNil : order_by (fun s => s.resolution) (progFilter streams) = [] :=
      (order_by_eq_nil_iff _ _).mpr hfilter
    unfold videoSelect
    rw [if_neg (fun hc => hne (List.isEmpty_iff.mp hc)), h, none_orElse', hOrdNil]
    rfl

theorem c2_amended_video_selection_witness :
    ∃ s, videoSelect [stream1080] = .ok s ∧ s ∈ progFilter [stream1080] ∧
      (s.resolution).isSome = true ∧
      ∀ t ∈ progFilter [stream1080], (t.resolution).isSome = true →
        natOfDigits (digitsOf ((t.resolution).getD "")) ≤
          natOfDigits (digitsOf ((s.resolution).getD "")) :=
  (c2_amended_video_selection [stream1080]).2.2.1 (by decide)
    ⟨stream1080, by decide, by decide⟩ (by decide)

/-- C4 counterexample: an audio-only stream exists but its `abr` attribute
is `None`, so `order_by("abr")` drops it and the code answers 404 "No audio
stream found" even though the claim allows that failure only when no
audio-only stream exists (and no selection happens at all). -/
theorem c4_counterexample :
    [audioNoAbr].filter (fun s => s.only_audio) ≠ [] ∧
    audioSelect [audioNoAbr] = .error ⟨404, "No audio stream found"⟩ := by
  constructor
  · decide
  · simp [audioSelect, order_by, desc, first, audioNoAbr, List.mergeSort_nil]

/-- C4 (corrected): the audio path selects a highest-`abr` stream among the
audio-only streams that report an `abr` value (maximal by pytube's
digit-extracted key, when those values contain digits); it fails 404 "No
audio stream found" exactly when no audio-only stream reports an `abr` —
which includes, but is not limited to, the case where no audio-only stream
exists. -/
theorem c4_amended_audio_selection (streams : List Stream') :
    ((streams.filter (fun s => s.only_audio)).filter (fun s => (s.abr).isSome) = [] →
      audioSelect streams = .error ⟨404, "No audio stream found"⟩) ∧
    (∀ s, audioSelect streams = .ok s →
      s ∈ streams ∧ s.only_audio = true ∧ (s.abr).isSome = true) ∧
    ((streams.filter (fun s => s.only_audio)).filter (fun s => (s.abr).isSome) ≠ [] →
      (∀ t ∈ streams.filter (fun s => s.only_audio), (t.abr).isSome = true →
        digitsOf ((t.abr).getD "") ≠ []) →
      ∃ s, audioSelect streams = .ok s ∧ s.only_audio = true ∧ (s.abr).isSome = true ∧
        ∀ t ∈ streams, t.only_audio = true → (t.abr).isSome = true →
          natOfDigits (digitsOf ((t.abr).getD "")) ≤
            natOfDigits (digitsOf ((s.abr).getD ""))) := by
  refine ⟨?_, ?_, ?_⟩
  · intro h
    have hOrdNil : order_by (fun s => s.abr) (streams.filter (fun s => s.only_audio)) = [] :=
      (order_by_eq_nil_iff _ _).mpr h
    unfold audioSelect
    rw [hOrdNil]
    rfl
  · intro s h
    unfold audioSelect at h
    cases hf : first (desc (order_by (fun s => s.abr)
        (streams.filter (fun s => s.only_audio)))) with
    | none => rw [hf] at h; injection h
    | some s' =>
      rw [hf] at h
      injection h with h'
      have hmem := order_by_first_mem (fun s => s.abr)
        (streams.filter (fun s => s.only_audio)) s' hf
      have hm := List.mem_filter.mp hmem.1
      rw [← h']
      exact ⟨hm.1, hm.2, hmem.2⟩
  · intro h hall
    obtain ⟨s, hs⟩ :=
      order_by_first_some (fun s => s.abr) (streams.filter (fun s => s.only_audio)) h
    have hmax := order_by_first_max (fun s => s.abr)
      (streams.filter (fun s => s.only_audio)) s hall hs
    have hm := List.mem_filter.mp hmax.2.1
    refine ⟨s, ?_, hm.2, hmax.1, fun t ht htau htab =>
      hmax.2.2 t (List.mem_filter.mpr ⟨ht, htau⟩) htab⟩
    unfold audioSelect
    rw [hs]

theorem htmlReport_contains_time (t f : String) : StrContains (htmlReport t f) t := by
  refine ⟨htmlHead.data,
    (htmlMid1 ++ f ++ htmlMid2 ++ "/file/" ++ f ++ htmlMid3 ++ "/file/" ++ f ++ htmlTail).data,
    ?_⟩
  simp only [htmlReport, String.data_append, List.append_assoc]

theorem htmlReport_contains_filename (t f : String) : StrContains (htmlReport t f) f := by
  refine ⟨(htmlHead ++ t ++ htmlMid1).data,
    (htmlMid2 ++ "/file/" ++ f ++ htmlMid3 ++ "/file/" ++ f ++ htmlTail).data, ?_⟩
  simp only [htmlReport, String.data_append, List.append_assoc]

theorem htmlReport_contains_link (t f : String) :
    StrContains (htmlReport t f) ("/file/" ++ f) := by
  refine ⟨(htmlHead ++ t ++ htmlMid1 ++ f ++ htmlMid2).data,
    (htmlMid3 ++ "/file/" ++ f ++ htmlTail).data, ?_⟩
  simp only [htmlReport, String.data_append, List.append_assoc]

theorem joinPath_of_hex_token (tok n : String) (hlen : tok.length = 8)
    (hh : ∀ c ∈ tok.data, isHexChar c = true) :
    joinPath DOWNLOAD_DIR (tok ++ "-" ++ n) = "downloads/" ++ (tok ++ "-" ++ n) := by
  unfold joinPath
  rw [if_neg ?hslash]
  · rfl
  case hslash =>
    intro hc
    rw [String.data_append, String.data_append] at hc
    cases htok : tok.data with
    | nil =>
      have : tok.data.length = 8 := hlen
      rw [htok] at this
      cases this
    | cons c cs =>
      rw [htok] at hc
      simp only [List.cons_append, List.head?_cons, Option.some.injEq] at hc
      have hch := hh c (by rw [htok]; exact List.mem_cons.mpr (Or.inl rfl))
      rw [hc] at hch
      exact absurd hch (by decide)

theorem token_paths_distinct (tok1 tok2 n1 n2 : String)
    (hlen1 : tok1.length = 8) (hlen2 : tok2.length = 8)
    (hh1 : ∀ c ∈ tok1.data, isHexChar c = true)
    (hh2 : ∀ c ∈ tok2.data, isHexChar c = true)
    (hne : tok1 ≠ tok2) :
    joinPath DOWNLOAD_DIR (tok1 ++ "-" ++ n1) ≠ joinPath DOWNLOAD_DIR (tok2 ++ "-" ++ n2) := by
  rw [joinPath_of_hex_token tok1 n1 hlen1 hh1, joinPath_of_hex_token tok2 n2 hlen2 hh2]
  intro hc
  have hd := congrArg String.data hc
  simp only [String.data_append, List.append_assoc] at hd
  have hd' : ("downloads/".data ++ tok1.data) ++ ("-".data ++ n1.data) =
      ("downloads/".data ++ tok2.data) ++ ("-".data ++ n2.data) := by
    simpa [List.append_assoc] using hd
  have e1 : tok1.data.length = 8 := hlen1
  have e2 : tok2.data.length = 8 := hlen2
  have hlen' : ("downloads/".data ++ tok1.data).length =
      ("downloads/".data ++ tok2.data).length := by
    simp [List.length_append, e1, e2]
  have hinj := List.append_inj hd' hlen'
  exact hne (String.ext (List.append_cancel_left hinj.1))

theorem c4_amended_audio_selection_witness :
    ∃ s, audioSelect [audio128, audio50] = .ok s ∧ s.only_audio = true ∧
      (s.abr).isSome = true ∧
      ∀ t ∈ [audio128, audio50], t.only_audio = true → (t.abr).isSome = true →
        natOfDigits (digitsOf ((t.abr).getD "")) ≤
          natOfDigits (digitsOf ((s.abr).getD "")) :=
  (c4_amended_audio_selection [audio128, audio50]).2.2 (by decide) (by decide)

/-- C7: on a successful job with `show_time=true` (and a monotone clock) the
response is the HTML report embedding the non-negative elapsed time, the
artifact filename, and the secondary retrieval path `/file/{filename}`;
and `GET /file/{name}` returns the stored file when it exists in the shared
downloads directory and fails with HTTP 404 `"File not found"` otherwise. -/
theorem c7_report_and_file_route (w : World) (url ty : String) (s : Stream')
    (hurl : pyStrip url ≠ "")
    (hinit : w.initExc = none)
    (hsel : selectStream w.streams (mediaTypeOf ty) = .ok s)
    (hdl : w.downloadExc = none)
    (hfs : w.fsExists (joinPath DOWNLOAD_DIR (w.token ++ "-" ++ s.default_filename)) = true)
    (hclock : w.t0 ≤ w.t1) :
    (api_download w url ty true =
      (.ok (.html (htmlReport (fmtFixed 2 (w.t1 - w.t0))
          (basename (joinPath DOWNLOAD_DIR (w.token ++ "-" ++ s.default_filename))))),
       [FsOp.write (joinPath DOWNLOAD_DIR (w.token ++ "-" ++ s.default_filename))]) ∧
     0 ≤ w.t1 - w.t0 ∧
     StrContains (htmlReport (fmtFixed 2 (w.t1 - w.t0))
         (basename (joinPath DOWNLOAD_DIR (w.token ++ "-" ++ s.default_filename))))
       (fmtFixed 2 (w.t1 - w.t0)) ∧
     StrContains (htmlReport (fmtFixed 2 (w.t1 - w.t0))
         (basename (joinPath DOWNLOAD_DIR (w.token ++ "-" ++ s.default_filename))))
       (basename (joinPath DOWNLOAD_DIR (w.token ++ "-" ++ s.default_filename))) ∧
     StrContains (htmlReport (fmtFixed 2 (w.t1 - w.t0))
         (basename (joinPath DOWNLOAD_DIR (w.token ++ "-" ++ s.default_filename))))
       ("/file/" ++ basename (joinPath DOWNLOAD_DIR (w.token ++ "-" ++ s.default_filename)))) ∧
    (∀ fsx : String → Bool, ∀ name : String,
      (fsx (joinPath DOWNLOAD_DIR name) = true →
        get_file fsx name =
          .ok (.file (joinPath DOWNLOAD_DIR name) name "application/octet-stream" none)) ∧
      (fsx (joinPath DOWNLOAD_DIR name) = false →
        get_file fsx name = .error ⟨404, "File not found"⟩)) := by
  constructor
  · refine ⟨?_, by omega, htmlReport_contains_time _ _, htmlReport_contains_filename _ _,
      htmlReport_contains_link _ _⟩
    rw [api_download_eval w url ty true hurl,
      download_ok_eval w (mediaTypeOf ty) s hinit hsel hdl hfs]
    rfl
  · intro fsx name
    constructor
    · intro hx
      unfold get_file
      dsimp only
      rw [hx]
      rfl
    · intro hx
      unfold get_file
      dsimp only
      rw [hx]
      rfl

theorem c7_report_and_file_route_witness :
    (api_download wOk "http://u" "video" true =
      (.ok (.html (htmlReport (fmtFixed 2 (wOk.t1 - wOk.t0))
          (basename (joinPath DOWNLOAD_DIR (wOk.token ++ "-" ++ stream720.default_filename))))),
       [FsOp.write (joinPath DOWNLOAD_DIR (wOk.token ++ "-" ++ stream720.default_filename))]) ∧
     0 ≤ wOk.t1 - wOk.t0 ∧
     StrContains (htmlReport (fmtFixed 2 (wOk.t1 - wOk.t0))
         (basename (joinPath DOWNLOAD_DIR (wOk.token ++ "-" ++ stream720.default_filename))))
       (fmtFixed 2 (wOk.t1 - wOk.t0)) ∧
     StrContains (htmlReport (fmtFixed 2 (wOk.t1 - wOk.t0))
         (basename (joinPath DOWNLOAD_DIR (wOk.token ++ "-" ++ stream720.default_filename))))
       (basename (joinPath DOWNLOAD_DIR (wOk.token ++ "-" ++ stream720.default_filename))) ∧
     StrContains (htmlReport (fmtFixed 2 (wOk.t1 - wOk.t0))
         (basename (joinPath DOWNLOAD_DIR (wOk.token ++ "-" ++ stream720.default_filename))))
       ("/file/" ++
         basename (joinPath DOWNLOAD_DIR (wOk.token ++ "-" ++ stream720.default_filename)))) ∧
    (∀ fsx : String → Bool, ∀ name : String,
      (fsx (joinPath DOWNLOAD_DIR name) = true →
        get_file fsx name =
          .ok (.file (joinPath DOWNLOAD_DIR name) name "application/octet-stream" none)) ∧
      (fsx (joinPath DOWNLOAD_DIR name) = false →
        get_file fsx name = .error ⟨404, "File not found"⟩)) :=
  c7_report_and_file_route wOk "http://u" "video" stream720 (by decide) (by decide)
    (by decide) (by decide) (by decide) (by decide)

/-- C8: for two jobs over the same url (same stream metadata) whose
per-request identity tokens are distinct eight-character hexadecimal uuid
prefixes, the produced artifact paths are distinct, neither job's filesystem
effects overwrite the other's artifact, and neither performs any removal;
the output filename is token-prefixed and the token is drawn by the oracle
independently of the url and title. -/
theorem c8_isolation (w1 w2 : World) (mt1 mt2 p1 p2 : String) (e1 e2 : Int)
    (tr1 tr2 : List FsOp)
    (h1 : download_with_pytube w1 mt1 = (.ok (p1, e1), tr1))
    (h2 : download_with_pytube w2 mt2 = (.ok (p2, e2), tr2))
    (hlen1 : w1.token.length = 8) (hlen2 : w2.token.length = 8)
    (hhex1 : ∀ c ∈ w1.token.data, isHexChar c = true)
    (hhex2 : ∀ c ∈ w2.token.data, isHexChar c = true)
    (hne : w1.token ≠ w2.token) :
    (∃ s1, selectStream w1.streams mt1 = .ok s1 ∧
      p1 = joinPath DOWNLOAD_DIR (w1.token ++ "-" ++ s1.default_filename)) ∧
    (∃ s2, selectStream w2.streams mt2 = .ok s2 ∧
      p2 = joinPath DOWNLOAD_DIR (w2.token ++ "-" ++ s2.default_filename)) ∧
    p1 ≠ p2 ∧
    (∀ q, FsOp.write q ∈ tr1 → q ≠ p2) ∧
    (∀ q, FsOp.write q ∈ tr2 → q ≠ p1) ∧
    countRemoves tr1 = 0 ∧ countRemoves tr2 = 0 := by
  obtain ⟨-, -, s1, hsel1, hp1, htr1, -, -⟩ := download_ok_inv w1 mt1 p1 e1 tr1 h1
  obtain ⟨-, -, s2, hsel2, hp2, htr2, -, -⟩ := download_ok_inv w2 mt2 p2 e2 tr2 h2
  have hdist : p1 ≠ p2 := by
    rw [hp1, hp2]
    exact token_paths_distinct w1.token w2.token s1.default_filename s2.default_filename
      hlen1 hlen2 hhex1 hhex2 hne
  refine ⟨⟨s1, hsel1, hp1⟩, ⟨s2, hsel2, hp2⟩, hdist, ?_, ?_, ?_, ?_⟩
  · intro q hq
    rw [htr1] at hq
    have := List.mem_singleton.mp hq
    injection this with hq'
    rw [hq']
    exact hdist
  · intro q hq
    rw [htr2] at hq
    have := List.mem_singleton.mp hq
    injection this with hq'
    rw [hq']
    exact fun hc => hdist hc.symm
  · rw [htr1]; rfl
  · rw [htr2]; rfl

theorem c8_isolation_witness :
    (∃ s1, selectStream wOk.streams "video" = .ok s1 ∧
      "downloads/aaaa1111-t.mp4" =
        joinPath DOWNLOAD_DIR (wOk.token ++ "-" ++ s1.default_filename)) ∧
    (∃ s2, selectStream wOk2.streams "video" = .ok s2 ∧
      "downloads/dddd4444-t.mp4" =
        joinPath DOWNLOAD_DIR (wOk2.token ++ "-" ++ s2.default_filename)) ∧
    ("downloads/aaaa1111-t.mp4" : String) ≠ "downloads/dddd4444-t.mp4" ∧
    (∀ q, FsOp.write q ∈ [FsOp.write "downloads/aaaa1111-t.mp4"] →
      q ≠ "downloads/dddd4444-t.mp4") ∧
    (∀ q, FsOp.write q ∈ [FsOp.write "downloads/dddd4444-t.mp4"] →
      q ≠ "downloads/aaaa1111-t.mp4") ∧
    countRemoves [FsOp.write "downloads/aaaa1111-t.mp4"] = 0 ∧
    countRemoves [FsOp.write "downloads/dddd4444-t.mp4"] = 0 :=
  c8_isolation wOk wOk2 "video" "video" "downloads/aaaa1111-t.mp4"
    "downloads/dddd4444-t.mp4" 2 3
    [FsOp.write "downloads/aaaa1111-t.mp4"] [FsOp.write "downloads/dddd4444-t.mp4"]
    (by decide) (by decide) (by decide) (by decide) (by decide) (by decide) (by decide)

end SongService
